import Mathlib

/-!
Verification development for the S1 trading-signal engine.

The Python sources are shallowly embedded over exact rationals:
machine floats become `ℚ`, Python `int(...)` on an already integral
value becomes `Int.floor`, unbounded `while True:` loops become
fuel-indexed recursion returning `Option`, and dictionaries become
association lists.  Each definition mirrors one function of the
repository; the source module is recorded in the namespace
(`ContactCalc` = contact_price_calculator.py,
`TradingSignal` = Trading_Signal_System_S1.py,
`Monitor` = Real_Time_Monitor_S1.py).
-/

namespace S1

namespace ContactCalc

/-- `get_tick_size` from contact_price_calculator.py: the KRX tick-size
table, a step function of the price. -/
def get_tick_size (p : ℚ) : ℚ :=
  if p < 2000 then 1
  else if p < 5000 then 5
  else if p < 20000 then 10
  else if p < 50000 then 50
  else if p < 200000 then 100
  else if p < 500000 then 500
  else 1000

/-- `ceil_tick` from contact_price_calculator.py: with `d` the tick size
of `y` and `q = int(y // d)`, return `q*d` when that equals `y`, else
`(q+1)*d`. -/
def ceil_tick (y : ℚ) : ℚ :=
  if (⌊y / get_tick_size y⌋ : ℚ) * get_tick_size y = y
  then (⌊y / get_tick_size y⌋ : ℚ) * get_tick_size y
  else ((⌊y / get_tick_size y⌋ : ℚ) + 1) * get_tick_size y

/-- The `while True:` loop of `solve_contact_price`, fuel-indexed.  Each
iteration recomputes the tick size `d` of the current candidate `p`,
forms `upper = (S19 + 25*d)/24`, accepts `p` when
`x_star <= p < upper` (`x_star = S19/24`), and otherwise advances to
`p + d`. -/
def solve_loop (S19 : ℚ) : ℕ → ℚ → Option ℚ
  | 0, _ => none
  | fuel + 1, p =>
    if S19 / 24 ≤ p ∧ p < (S19 + 25 * get_tick_size p) / 24
    then some p
    else solve_loop S19 fuel (p + get_tick_size p)

/-- `solve_contact_price` from contact_price_calculator.py: start at
`p = ceil_tick(S19 / 24.0)` and iterate; `int(p)` on the accepted
(integral, as proved below) candidate is modeled by `Int.floor`.  The
Python loop is unbounded (`while True:`); the embedding adds a fuel
parameter, and `solve_loop_first` below shows any `fuel ≥ 1` yields
the same result. -/
def solve_contact_price (S19 : ℚ) (fuel : ℕ) : Option ℤ :=
  (solve_loop S19 fuel (ceil_tick (S19 / 24))).map fun p => ⌊p⌋

/-- `verify_contact_price` from contact_price_calculator.py:
`ma20 = (S19 + p)/20`, `envelope = ma20 * 0.8`, `buy1 = ceil_tick(envelope)`,
result `p == buy1` (the float literal `0.8` is the exact factor 8/10). -/
def verify_contact_price (S19 : ℚ) (p : ℤ) : Bool :=
  decide ((p : ℚ) = ceil_tick ((S19 + (p : ℚ)) / 20 * (8 / 10)))

end ContactCalc

namespace TradingSignal

/-- `get_tick_unit` from Trading_Signal_System_S1.py (same table as
`ContactCalc.get_tick_size`, re-implemented in that module). -/
def get_tick_unit (price : ℚ) : ℚ :=
  if price < 2000 then 1
  else if price < 5000 then 5
  else if price < 20000 then 10
  else if price < 50000 then 50
  else if price < 200000 then 100
  else if price < 500000 then 500
  else 1000

/-- `get_nearest_tick_price` from Trading_Signal_System_S1.py: an
exactly-on-tick price is moved one full tick up (`price % tick_unit == 0`
returns `price + tick_unit`); otherwise the price is rounded to the
next tick above (`lower_tick + tick_unit`). -/
def get_nearest_tick_price (price : ℚ) : ℚ :=
  if (⌊price / get_tick_unit price⌋ : ℚ) * get_tick_unit price = price
  then price + get_tick_unit price
  else (⌊price / get_tick_unit price⌋ : ℚ) * get_tick_unit price + get_tick_unit price

/-- `ceil_tick` from Trading_Signal_System_S1.py:
`math.ceil(price / delta) * delta`. -/
def ceil_tick (price : ℚ) : ℚ :=
  (⌈price / get_tick_unit price⌉ : ℚ) * get_tick_unit price

/-- `floor_tick` from Trading_Signal_System_S1.py:
`math.floor(price / delta) * delta`. -/
def floor_tick (price : ℚ) : ℚ :=
  (⌊price / get_tick_unit price⌋ : ℚ) * get_tick_unit price

/-- The `while True:` loop of `predict_next_day_buy_price`
(Trading_Signal_System_S1.py): recompute `delta = get_tick_unit(p)`,
`upper = (S19_next + 25.0*delta)/24.0`, accept when `p < upper` (this
loop has no lower-bound test), else move one tick up. -/
def predict_loop (S19_next : ℚ) : ℕ → ℚ → Option ℚ
  | 0, _ => none
  | fuel + 1, p =>
    if p < (S19_next + 25 * get_tick_unit p) / 24
    then some p
    else predict_loop S19_next fuel (p + get_tick_unit p)

/-- `predict_next_day_buy_price` from Trading_Signal_System_S1.py:
start at `p = ceil_tick(S19_next / 24.0)` (this module's
`math.ceil`-based `ceil_tick`) and iterate; `int(p)` is `Int.floor`.
Fuel-indexed like `ContactCalc.solve_contact_price`. -/
def predict_next_day_buy_price (S19_next : ℚ) (fuel : ℕ) : Option ℤ :=
  (predict_loop S19_next fuel (ceil_tick (S19_next / 24))).map fun p => ⌊p⌋

/-- `calculate_ma(df, period=20)` from Trading_Signal_System_S1.py:
`None` when fewer than 20 closes, else the mean of the last 20
(`df["close"].tail(20).mean()`); the list is chronological, oldest
first, so `tail(20)` drops all but the final 20 entries. -/
def calculate_ma (closes : List ℚ) : Option ℚ :=
  if closes.length < 20 then none
  else some ((closes.drop (closes.length - 20)).sum / 20)

/-- `S19_today` as computed in `analyze_stock`
(Trading_Signal_System_S1.py lines 490-493):
`S20_today = ma20_today * 20`, `Close_D_20 = df_chart.iloc[-20]["close"]`,
`S19_today = S20_today - Close_D_20`.  `iloc[-20]` is the element at
index `len - 20` of the chronological list. -/
def S19_today (closes : List ℚ) : Option ℚ :=
  (calculate_ma closes).map fun ma20 =>
    ma20 * 20 - closes.getD (closes.length - 20) 0

/-- `S19_next` as computed in `analyze_stock`
(Trading_Signal_System_S1.py lines 504-505):
`Close_D_19 = df_chart.iloc[-20]["close"]` (the same `iloc[-20]` as
`Close_D_20` above), `S19_next = S20_today - Close_D_19`. -/
def S19_next (closes : List ℚ) : Option ℚ :=
  (calculate_ma closes).map fun ma20 =>
    ma20 * 20 - closes.getD (closes.length - 20) 0

/-- The sell lines as computed by the state machine in `analyze_stock`
(Trading_Signal_System_S1.py lines 619-624): for a held position with
`avg_price > 0`, `sell_k = avg_price * (1 + SELL_LEVELS[k]/100)` with
`SELL_LEVELS = [3.0, 5.0, 7.0]` and no tick quantization; otherwise
all three are set to `0`. -/
def analyze_sell_lines (avg_price : ℚ) : ℚ × ℚ × ℚ :=
  if 0 < avg_price then
    (avg_price * (1 + 3 / 100), avg_price * (1 + 5 / 100), avg_price * (1 + 7 / 100))
  else (0, 0, 0)

end TradingSignal

namespace Monitor

/-- `calculate_tick_unit` from Real_Time_Monitor_S1.py (a third copy of
the tick-size table). -/
def calculate_tick_unit (price : ℚ) : ℚ :=
  if price < 2000 then 1
  else if price < 5000 then 5
  else if price < 20000 then 10
  else if price < 50000 then 50
  else if price < 200000 then 100
  else if price < 500000 then 500
  else 1000

/-- `get_nearest_tick_price` from Real_Time_Monitor_S1.py: an
exactly-on-tick price is returned unchanged; otherwise the price is
rounded to the next tick above. -/
def get_nearest_tick_price (price : ℚ) : ℚ :=
  if (⌊price / calculate_tick_unit price⌋ : ℚ) * calculate_tick_unit price = price
  then price
  else (⌊price / calculate_tick_unit price⌋ : ℚ) * calculate_tick_unit price
    + calculate_tick_unit price

/-- `calculate_low_price_distance` from Real_Time_Monitor_S1.py (the
second definition, line 480, which shadows the first): `None` when the
target price is 0, else `((low - target)/target) * 100` with the
`1e-10` epsilon clamp to exact `0`. -/
def calculate_low_price_distance (low_price target_price : ℚ) : Option ℚ :=
  if target_price = 0 then none
  else if |(low_price - target_price) / target_price * 100| < 1 / 10 ^ 10
  then some 0
  else some ((low_price - target_price) / target_price * 100)

/-- One ticker's entry of `history["alerts"]`: the set of condition keys
whose flag has been set (the code only ever stores `True`). -/
abbrev TickerAlerts := List String

/-- `history["alerts"]`: a dict from ticker to its fired condition keys,
modeled as an association list. -/
abbrev AlertMap := List (String × TickerAlerts)

/-- The alert-history JSON object `{"date": ..., "alerts": {...}}`
managed by `load_alert_history` / `save_alert_history`. -/
structure AlertHistory where
  date : String
  alerts : AlertMap
deriving DecidableEq

/-- `alerts.get(ticker, {})`. -/
def dictGet (m : AlertMap) (t : String) : TickerAlerts :=
  match m with
  | [] => []
  | (t', ta') :: rest => if t' = t then ta' else dictGet rest t

/-- `ticker_alerts.get(key, False)`. -/
def taGet (ta : TickerAlerts) (k : String) : Bool :=
  match ta with
  | [] => false
  | k' :: rest => if k' = k then true else taGet rest k

/-- `ticker_alerts[key] = True` (only `True` is ever stored, so the map
is a set of keys). -/
def taSet (ta : TickerAlerts) (k : String) : TickerAlerts :=
  if taGet ta k then ta else k :: ta

/-- `alerts[ticker] = ticker_alerts` on the association list. -/
def dictSet (m : AlertMap) (t : String) (ta : TickerAlerts) : AlertMap :=
  match m with
  | [] => [(t, ta)]
  | (t', ta') :: rest =>
    if t' = t then (t, ta) :: rest else (t', ta') :: dictSet rest t ta

/-- Observable outcome of one `check_simplified_alert` call: its boolean
return value, the final history object, the `alert_type` of each
`send_realtime_alert` call performed, and whether `save_alert_history`
was called. -/
structure CheckResult where
  fired : Bool
  history : AlertHistory
  sends : List String
  saved : Bool
deriving DecidableEq

/-- One buy-status arm of `check_simplified_alert`: compute the
low-price distance against the relevant buy line, then walk the
executed / 1% / 3% / 5% `if/elif` ladder.  A firing branch performs one
`send_realtime_alert`, sets exactly one condition key, writes the
ticker's map back into `history["alerts"]` and calls
`save_alert_history`; a suppressed or out-of-range distance leaves the
history untouched, sends nothing, saves nothing and falls through to
`return False`.  The `none` result models the `TypeError` Python would
raise comparing the `None` distance (target price 0) against `0`. -/
def ladderStep (ticker : String) (d : ℚ)
    (execKey execType k1 t1 k3 t3 k5 t5 : String)
    (h : AlertHistory) : CheckResult :=
  if d ≤ 0 then
    if taGet (dictGet h.alerts ticker) execKey = false then
      ⟨true,
        ⟨h.date, dictSet h.alerts ticker (taSet (dictGet h.alerts ticker) execKey)⟩,
        [execType], true⟩
    else ⟨false, h, [], false⟩
  else if 0 < d ∧ d ≤ 1 then
    if taGet (dictGet h.alerts ticker) k1 = false then
      ⟨true,
        ⟨h.date, dictSet h.alerts ticker (taSet (dictGet h.alerts ticker) k1)⟩,
        [t1], true⟩
    else ⟨false, h, [], false⟩
  else if 0 < d ∧ d ≤ 3 then
    if taGet (dictGet h.alerts ticker) k3 = false
        ∧ taGet (dictGet h.alerts ticker) k1 = false then
      ⟨true,
        ⟨h.date, dictSet h.alerts ticker (taSet (dictGet h.alerts ticker) k3)⟩,
        [t3], true⟩
    else ⟨false, h, [], false⟩
  else if 0 < d ∧ d ≤ 5 then
    if taGet (dictGet h.alerts ticker) k5 = false
        ∧ taGet (dictGet h.alerts ticker) k1 = false
        ∧ taGet (dictGet h.alerts ticker) k3 = false then
      ⟨true,
        ⟨h.date, dictSet h.alerts ticker (taSet (dictGet h.alerts ticker) k5)⟩,
        [t5], true⟩
    else ⟨false, h, [], false⟩
  else ⟨false, h, [], false⟩

/-- The full arm: the distance computation feeding `ladderStep`.  The
`none` result (target price 0) models the `TypeError` the Python code
would raise comparing `None` against `0`. -/
def checkBuyLadder (ticker : String) (low_price buy_line : ℚ)
    (execKey execType k1 t1 k3 t3 k5 t5 : String)
    (h : AlertHistory) : Option CheckResult :=
  (calculate_low_price_distance low_price buy_line).map fun d =>
    ladderStep ticker d execKey execType k1 t1 k3 t3 k5 t5 h

/-- `check_simplified_alert` from Real_Time_Monitor_S1.py: a missing
buy line returns `False` immediately; otherwise the arm for the current
buy status (NONE / BOUGHT_1 / BOUGHT_2) runs its ladder against buy1 /
buy2 / buy3 respectively, and any other status returns `False` with the
history untouched.  `current_price` and `stock_name` only decorate the
sent message. -/
def check_simplified_alert (ticker stock_name : String)
    (current_price low_price : ℚ) (buy_status : String)
    (buy1 buy2 buy3 : Option ℚ) (h : AlertHistory) : Option CheckResult :=
  match buy1, buy2, buy3 with
  | some b1, some b2, some b3 =>
    if buy_status = "NONE" then
      checkBuyLadder ticker low_price b1
        "BUY1_EXECUTED" "1차 매수 체결!"
        "READY_BUY1_1%" "1차 매수선 1% 인접"
        "READY_BUY1_3%" "1차 매수선 3% 인접"
        "READY_BUY1_5%" "1차 매수선 5% 인접" h
    else if buy_status = "BOUGHT_1" then
      checkBuyLadder ticker low_price b2
        "BUY2_EXECUTED" "2차 매수 체결!"
        "READY_BUY2_1%" "2차 매수선 1% 인접"
        "READY_BUY2_3%" "2차 매수선 3% 인접"
        "READY_BUY2_5%" "2차 매수선 5% 인접" h
    else if buy_status = "BOUGHT_2" then
      checkBuyLadder ticker low_price b3
        "BUY3_EXECUTED" "3차 매수 체결!"
        "READY_BUY3_1%" "3차 매수선 1% 인접"
        "READY_BUY3_3%" "3차 매수선 3% 인접"
        "READY_BUY3_5%" "3차 매수선 5% 인접" h
    else some ⟨false, h, [], false⟩
  | _, _, _ => some ⟨false, h, [], false⟩

end Monitor

/-! Basic facts about the tick table and the rounding helpers.  The
three tick tables are definitionally the same function. -/

lemma tick_unit_eq_tick_size (p : ℚ) :
    TradingSignal.get_tick_unit p = ContactCalc.get_tick_size p := rfl

lemma monitor_tick_eq_tick_size (p : ℚ) :
    Monitor.calculate_tick_unit p = ContactCalc.get_tick_size p := rfl

namespace ContactCalc

lemma tick_cases (p : ℚ) :
    (p < 2000 ∧ get_tick_size p = 1) ∨
    (2000 ≤ p ∧ p < 5000 ∧ get_tick_size p = 5) ∨
    (5000 ≤ p ∧ p < 20000 ∧ get_tick_size p = 10) ∨
    (20000 ≤ p ∧ p < 50000 ∧ get_tick_size p = 50) ∨
    (50000 ≤ p ∧ p < 200000 ∧ get_tick_size p = 100) ∨
    (200000 ≤ p ∧ p < 500000 ∧ get_tick_size p = 500) ∨
    (500000 ≤ p ∧ get_tick_size p = 1000) := by
  unfold get_tick_size
  split_ifs with h1 h2 h3 h4 h5 h6
  · exact Or.inl ⟨h1, rfl⟩
  · exact Or.inr (Or.inl ⟨le_of_not_lt h1, h2, rfl⟩)
  · exact Or.inr (Or.inr (Or.inl ⟨le_of_not_lt h2, h3, rfl⟩))
  · exact Or.inr (Or.inr (Or.inr (Or.inl ⟨le_of_not_lt h3, h4, rfl⟩)))
  · exact Or.inr (Or.inr (Or.inr (Or.inr (Or.inl ⟨le_of_not_lt h4, h5, rfl⟩))))
  · exact Or.inr (Or.inr (Or.inr (Or.inr (Or.inr (Or.inl ⟨le_of_not_lt h5, h6, rfl⟩)))))
  · exact Or.inr (Or.inr (Or.inr (Or.inr (Or.inr (Or.inr ⟨le_of_not_lt h6, rfl⟩)))))

lemma tick_pos (p : ℚ) : 0 < get_tick_size p := by
  rcases tick_cases p with ⟨_, e⟩ | ⟨_, _, e⟩ | ⟨_, _, e⟩ | ⟨_, _, e⟩ |
    ⟨_, _, e⟩ | ⟨_, _, e⟩ | ⟨_, e⟩ <;> rw [e] <;> norm_num

lemma tick_mono {p q : ℚ} (hpq : p ≤ q) :
    get_tick_size p ≤ get_tick_size q := by
  rcases tick_cases p with ⟨hp, ep⟩ | ⟨hp1, hp2, ep⟩ | ⟨hp1, hp2, ep⟩ |
      ⟨hp1, hp2, ep⟩ | ⟨hp1, hp2, ep⟩ | ⟨hp1, hp2, ep⟩ | ⟨hp1, ep⟩ <;>
    rcases tick_cases q with ⟨hq, eq'⟩ | ⟨hq1, hq2, eq'⟩ | ⟨hq1, hq2, eq'⟩ |
      ⟨hq1, hq2, eq'⟩ | ⟨hq1, hq2, eq'⟩ | ⟨hq1, hq2, eq'⟩ | ⟨hq1, eq'⟩ <;>
    rw [ep, eq'] <;> linarith

/-- Any larger tick size in the table is an integer multiple of any
smaller one (the table values form the divisibility chain
1, 5, 10, 50, 100, 500, 1000). -/
lemma tick_dvd_of_le {p q : ℚ} (hpq : p ≤ q) :
    ∃ m : ℤ, get_tick_size q = (m : ℚ) * get_tick_size p := by
  rcases tick_cases p with ⟨hp, ep⟩ | ⟨hp1, hp2, ep⟩ | ⟨hp1, hp2, ep⟩ |
      ⟨hp1, hp2, ep⟩ | ⟨hp1, hp2, ep⟩ | ⟨hp1, hp2, ep⟩ | ⟨hp1, ep⟩ <;>
    rcases tick_cases q with ⟨hq, eq'⟩ | ⟨hq1, hq2, eq'⟩ | ⟨hq1, hq2, eq'⟩ |
      ⟨hq1, hq2, eq'⟩ | ⟨hq1, hq2, eq'⟩ | ⟨hq1, hq2, eq'⟩ | ⟨hq1, eq'⟩ <;>
    rw [ep, eq'] <;>
    first
      | (refine ⟨1, ?_⟩; norm_num; done)
      | (refine ⟨2, ?_⟩; norm_num; done)
      | (refine ⟨5, ?_⟩; norm_num; done)
      | (refine ⟨10, ?_⟩; norm_num; done)
      | (refine ⟨20, ?_⟩; norm_num; done)
      | (refine ⟨50, ?_⟩; norm_num; done)
      | (refine ⟨100, ?_⟩; norm_num; done)
      | (refine ⟨200, ?_⟩; norm_num; done)
      | (refine ⟨500, ?_⟩; norm_num; done)
      | (refine ⟨1000, ?_⟩; norm_num; done)
      | (exfalso; linarith)

lemma floor_mul_le (y d : ℚ) (hd : 0 < d) : (⌊y / d⌋ : ℚ) * d ≤ y := by
  have h1 : (⌊y / d⌋ : ℚ) ≤ y / d := Int.floor_le (y / d)
  have h3 := mul_le_mul_of_nonneg_right h1 (le_of_lt hd)
  rwa [div_mul_cancel₀ y (ne_of_gt hd)] at h3

lemma lt_floor_add_one_mul (y d : ℚ) (hd : 0 < d) : y < ((⌊y / d⌋ : ℚ) + 1) * d := by
  have h1 : y / d < (⌊y / d⌋ : ℚ) + 1 := Int.lt_floor_add_one (y / d)
  have h3 := mul_lt_mul_of_pos_right h1 hd
  rwa [div_mul_cancel₀ y (ne_of_gt hd)] at h3

lemma le_ceil_tick (y : ℚ) : y ≤ ceil_tick y := by
  unfold ceil_tick
  by_cases h : (⌊y / get_tick_size y⌋ : ℚ) * get_tick_size y = y
  · rw [if_pos h, h]
  · rw [if_neg h]
    exact le_of_lt (lt_floor_add_one_mul y _ (tick_pos y))

lemma ceil_tick_lt (y : ℚ) : ceil_tick y < y + get_tick_size y := by
  unfold ceil_tick
  have hd := tick_pos y
  by_cases h : (⌊y / get_tick_size y⌋ : ℚ) * get_tick_size y = y
  · rw [if_pos h, h]; linarith
  · rw [if_neg h]
    have h2 : (⌊y / get_tick_size y⌋ : ℚ) * get_tick_size y ≤ y :=
      floor_mul_le y _ hd
    have h5 : (⌊y / get_tick_size y⌋ : ℚ) * get_tick_size y < y :=
      lt_of_le_of_ne h2 h
    have hexp : ((⌊y / get_tick_size y⌋ : ℚ) + 1) * get_tick_size y
        = (⌊y / get_tick_size y⌋ : ℚ) * get_tick_size y + get_tick_size y := by ring
    rw [hexp]
    linarith

/-- `ceil_tick y` is an integer multiple of the tick size of `y`. -/
lemma ceil_tick_isMul (y : ℚ) :
    ∃ k : ℤ, ceil_tick y = (k : ℚ) * get_tick_size y := by
  unfold ceil_tick
  by_cases h : (⌊y / get_tick_size y⌋ : ℚ) * get_tick_size y = y
  · exact ⟨⌊y / get_tick_size y⌋, by rw [if_pos h]⟩
  · exact ⟨⌊y / get_tick_size y⌋ + 1, by rw [if_neg h]; push_cast; ring⟩

/-- `ceil_tick y` is below every integer multiple of `y`'s tick size
that lies at or above `y`. -/
lemma ceil_tick_le_of_mul_ge {y x : ℚ} (k : ℤ)
    (hx : x = (k : ℚ) * get_tick_size y) (hyx : y ≤ x) :
    ceil_tick y ≤ x := by
  unfold ceil_tick
  have hd := tick_pos y
  by_cases h : (⌊y / get_tick_size y⌋ : ℚ) * get_tick_size y = y
  · rw [if_pos h, h]; exact hyx
  · rw [if_neg h]
    have h2 : (⌊y / get_tick_size y⌋ : ℚ) * get_tick_size y ≤ y :=
      floor_mul_le y _ hd
    have h5 : (⌊y / get_tick_size y⌋ : ℚ) * get_tick_size y < y :=
      lt_of_le_of_ne h2 h
    have h6 : (⌊y / get_tick_size y⌋ : ℚ) * get_tick_size y < (k : ℚ) * get_tick_size y := by
      rw [← hx]; exact lt_of_lt_of_le h5 hyx
    have h7 : ⌊y / get_tick_size y⌋ < k := by
      by_contra hcon
      push_neg at hcon
      have hcast : (k : ℚ) ≤ (⌊y / get_tick_size y⌋ : ℚ) := by exact_mod_cast hcon
      have := mul_le_mul_of_nonneg_right hcast (le_of_lt hd)
      linarith
    have h8 : (⌊y / get_tick_size y⌋ : ℚ) + 1 ≤ (k : ℚ) := by exact_mod_cast h7
    rw [hx]
    exact mul_le_mul_of_nonneg_right h8 (le_of_lt hd)

/-- Uniqueness of the tick multiple in a half-open window of width one
tick: if `x` is on `y`'s tick grid and `y ≤ x < y + tick`, then
`ceil_tick y = x`. -/
lemma ceil_tick_eq_of_mem {y x : ℚ} (k : ℤ)
    (hx : x = (k : ℚ) * get_tick_size y) (h1 : y ≤ x)
    (h2 : x < y + get_tick_size y) :
    ceil_tick y = x := by
  have hle : ceil_tick y ≤ x := ceil_tick_le_of_mul_ge k hx h1
  rcases ceil_tick_isMul y with ⟨k', hk'⟩
  have hge : x ≤ ceil_tick y := by
    by_contra hcon
    push_neg at hcon
    -- ceil_tick y < x, both multiples of the tick, y ≤ ceil_tick y,
    -- x < y + tick: two distinct multiples cannot fit in the window.
    have hd := tick_pos y
    have hy1 : y ≤ ceil_tick y := le_ceil_tick y
    have hkk : (k' : ℚ) * get_tick_size y < (k : ℚ) * get_tick_size y := by
      rw [← hk', ← hx]; exact hcon
    have hkint : k' < k := by
      by_contra hc2
      push_neg at hc2
      have hcast : (k : ℚ) ≤ (k' : ℚ) := by exact_mod_cast hc2
      have := mul_le_mul_of_nonneg_right hcast (le_of_lt hd)
      linarith
    have hk1 : (k' : ℚ) + 1 ≤ (k : ℚ) := by exact_mod_cast hkint
    have hmul := mul_le_mul_of_nonneg_right hk1 (le_of_lt hd)
    have hexp : ((k' : ℚ) + 1) * get_tick_size y
        = (k' : ℚ) * get_tick_size y + get_tick_size y := by ring
    have : ceil_tick y + get_tick_size y ≤ x := by
      rw [hk', hx]; linarith [hexp ▸ hmul]
    linarith
  linarith [le_antisymm hle hge]

lemma tick_of_ge_500000 {z : ℚ} (hz : 500000 ≤ z) : get_tick_size z = 1000 := by
  unfold get_tick_size
  split_ifs <;> linarith

/-- The tick size is always an integer-valued rational. -/
lemma tick_int (p : ℚ) : ∃ n : ℤ, get_tick_size p = (n : ℚ) := by
  rcases tick_cases p with ⟨_, e⟩ | ⟨_, _, e⟩ | ⟨_, _, e⟩ | ⟨_, _, e⟩ |
      ⟨_, _, e⟩ | ⟨_, _, e⟩ | ⟨_, e⟩ <;> rw [e]
  · exact ⟨1, by norm_num⟩
  · exact ⟨5, by norm_num⟩
  · exact ⟨10, by norm_num⟩
  · exact ⟨50, by norm_num⟩
  · exact ⟨100, by norm_num⟩
  · exact ⟨500, by norm_num⟩
  · exact ⟨1000, by norm_num⟩

lemma ceil_isMul_self_aux (y hi : ℚ) (kb : ℤ)
    (hhi : hi = (kb : ℚ) * get_tick_size y)
    (hy : y ≤ hi)
    (hmid : ∀ z : ℚ, y ≤ z → z < hi → get_tick_size z = get_tick_size y)
    (hbdry : ∃ k : ℤ, hi = (k : ℚ) * get_tick_size hi) :
    ∃ k : ℤ, ceil_tick y = (k : ℚ) * get_tick_size (ceil_tick y) := by
  have h1 := le_ceil_tick y
  have h2 := ceil_tick_le_of_mul_ge kb hhi hy
  rcases ceil_tick_isMul y with ⟨k0, hk0⟩
  rcases lt_or_eq_of_le h2 with h3 | h3
  · have h4 := hmid (ceil_tick y) h1 h3
    exact ⟨k0, by rw [h4]; exact hk0⟩
  · rw [h3]; exact hbdry

/-- A rounded-up price sits on the tick grid of its own bucket: within a
bucket the tick size is constant, and each bucket's upper boundary is a
legal tick of the next bucket. -/
lemma ceil_tick_isMul_self (y : ℚ) :
    ∃ k : ℤ, ceil_tick y = (k : ℚ) * get_tick_size (ceil_tick y) := by
  rcases tick_cases y with ⟨hy, ey⟩ | ⟨hy1, hy2, ey⟩ | ⟨hy1, hy2, ey⟩ |
      ⟨hy1, hy2, ey⟩ | ⟨hy1, hy2, ey⟩ | ⟨hy1, hy2, ey⟩ | ⟨hy1, ey⟩
  · refine ceil_isMul_self_aux y 2000 2000 (by rw [ey]; norm_num) (by linarith)
      (fun z hz1 hz2 => by rw [ey]; unfold get_tick_size; split_ifs <;> linarith) ?_
    refine ⟨400, ?_⟩
    unfold get_tick_size
    norm_num
  · refine ceil_isMul_self_aux y 5000 1000 (by rw [ey]; norm_num) (by linarith)
      (fun z hz1 hz2 => by rw [ey]; unfold get_tick_size; split_ifs <;> linarith) ?_
    refine ⟨500, ?_⟩
    unfold get_tick_size
    norm_num
  · refine ceil_isMul_self_aux y 20000 2000 (by rw [ey]; norm_num) (by linarith)
      (fun z hz1 hz2 => by rw [ey]; unfold get_tick_size; split_ifs <;> linarith) ?_
    refine ⟨400, ?_⟩
    unfold get_tick_size
    norm_num
  · refine ceil_isMul_self_aux y 50000 1000 (by rw [ey]; norm_num) (by linarith)
      (fun z hz1 hz2 => by rw [ey]; unfold get_tick_size; split_ifs <;> linarith) ?_
    refine ⟨500, ?_⟩
    unfold get_tick_size
    norm_num
  · refine ceil_isMul_self_aux y 200000 2000 (by rw [ey]; norm_num) (by linarith)
      (fun z hz1 hz2 => by rw [ey]; unfold get_tick_size; split_ifs <;> linarith) ?_
    refine ⟨400, ?_⟩
    unfold get_tick_size
    norm_num
  · refine ceil_isMul_self_aux y 500000 1000 (by rw [ey]; norm_num) (by linarith)
      (fun z hz1 hz2 => by rw [ey]; unfold get_tick_size; split_ifs <;> linarith) ?_
    refine ⟨500, ?_⟩
    unfold get_tick_size
    norm_num
  · rcases ceil_tick_isMul y with ⟨k0, hk0⟩
    have hge : 500000 ≤ ceil_tick y := le_trans hy1 (le_ceil_tick y)
    refine ⟨k0, ?_⟩
    rw [tick_of_ge_500000 hge, hk0, ey]

/-- `ceil_tick` always produces an integer-valued rational. -/
lemma ceil_tick_int (y : ℚ) : ∃ m : ℤ, ceil_tick y = (m : ℚ) := by
  rcases ceil_tick_isMul y with ⟨k, hk⟩
  rcases tick_int y with ⟨n, hn⟩
  exact ⟨k * n, by rw [hk, hn]; push_cast; ring⟩

/-- The loop guard already holds at the very first candidate
`ceil_tick (S19/24)`, for every `S19`. -/
lemma first_candidate_accepted (S19 : ℚ) :
    S19 / 24 ≤ ceil_tick (S19 / 24) ∧
    ceil_tick (S19 / 24) <
      (S19 + 25 * get_tick_size (ceil_tick (S19 / 24))) / 24 := by
  refine ⟨le_ceil_tick _, ?_⟩
  have h1 := ceil_tick_lt (S19 / 24)
  have h2 : get_tick_size (S19 / 24) ≤ get_tick_size (ceil_tick (S19 / 24)) :=
    tick_mono (le_ceil_tick (S19 / 24))
  have h3 := tick_pos (ceil_tick (S19 / 24))
  have h4 : (S19 + 25 * get_tick_size (ceil_tick (S19 / 24))) / 24
      = S19 / 24 + (25 / 24) * get_tick_size (ceil_tick (S19 / 24)) := by ring
  rw [h4]
  linarith

lemma solve_loop_first (S19 : ℚ) (fuel : ℕ) (hf : 1 ≤ fuel) :
    solve_loop S19 fuel (ceil_tick (S19 / 24)) = some (ceil_tick (S19 / 24)) := by
  cases fuel with
  | zero => exact absurd hf (by norm_num)
  | succ n =>
    unfold solve_loop
    rw [if_pos (first_candidate_accepted S19)]

lemma solve_contact_price_eq (S19 : ℚ) (fuel : ℕ) (hf : 1 ≤ fuel) :
    solve_contact_price S19 fuel = some ⌊ceil_tick (S19 / 24)⌋ := by
  unfold solve_contact_price
  rw [solve_loop_first S19 fuel hf]
  rfl

/-- The accepted candidate passes the independent verifier: with
`p = ceil_tick(S19/24)` and `e = (S19+p)/25`, `p` is the unique tick
multiple in the window `[e, e + tick e)`. -/
lemma verify_first_candidate (S19 : ℚ) :
    verify_contact_price S19 ⌊ceil_tick (S19 / 24)⌋ = true := by
  rcases ceil_tick_int (S19 / 24) with ⟨m, hm⟩
  have hfl : (⌊ceil_tick (S19 / 24)⌋ : ℚ) = ceil_tick (S19 / 24) := by
    rw [hm, Int.floor_intCast]
  unfold verify_contact_price
  rw [hfl]
  set x := S19 / 24 with hx
  set p := ceil_tick x with hp
  have hS : S19 = 24 * x := by rw [hx]; ring
  have he : (S19 + p) / 20 * (8 / 10) = (24 * x + p) / 25 := by rw [hS]; ring
  rw [he]
  set e := (24 * x + p) / 25 with hedef
  have hxp : x ≤ p := le_ceil_tick x
  have hpx : p < x + get_tick_size x := ceil_tick_lt x
  have hxe : x ≤ e := by rw [hedef]; linarith
  have hep : e ≤ p := by rw [hedef]; linarith
  have htxe : get_tick_size x ≤ get_tick_size e := tick_mono hxe
  have htep : get_tick_size e ≤ get_tick_size p := tick_mono hep
  -- p is a multiple of its own tick, hence of the (dividing) tick of e
  rcases ceil_tick_isMul_self x with ⟨k0, hk0⟩
  rcases tick_dvd_of_le hep with ⟨mm, hmm⟩
  have hpmul : p = ((k0 * mm : ℤ) : ℚ) * get_tick_size e := by
    rw [← hp] at hk0
    rw [hk0, hmm]
    push_cast
    ring
  have hwin : p < e + get_tick_size e := by
    have h5 : p - e = (24 / 25) * (p - x) := by rw [hedef]; ring
    have h6 : p - x < get_tick_size x := by linarith
    have h7 : p - e ≤ p - x := by rw [h5]; nlinarith [sub_nonneg.mpr hxp]
    linarith
  have := ceil_tick_eq_of_mem (k0 * mm) hpmul hep hwin
  simp [this]

end ContactCalc

namespace TradingSignal

lemma floor_tick_le (p : ℚ) : floor_tick p ≤ p := by
  unfold floor_tick
  rw [tick_unit_eq_tick_size]
  exact ContactCalc.floor_mul_le p _ (ContactCalc.tick_pos p)

/-- A rounded-down price sits on the tick grid of its own bucket: its
bucket's tick divides the (larger) tick used for the rounding. -/
lemma floor_tick_isMul_self (p : ℚ) :
    ∃ k : ℤ, floor_tick p = (k : ℚ) * ContactCalc.get_tick_size (floor_tick p) := by
  have hle : floor_tick p ≤ p := floor_tick_le p
  rcases ContactCalc.tick_dvd_of_le hle with ⟨m, hm⟩
  refine ⟨⌊p / get_tick_unit p⌋ * m, ?_⟩
  have hq : floor_tick p = (⌊p / get_tick_unit p⌋ : ℚ) * ContactCalc.get_tick_size p := by
    unfold floor_tick
    rw [tick_unit_eq_tick_size]
  set t := ContactCalc.get_tick_size (floor_tick p) with ht
  rw [hq, hm]
  push_cast
  ring

end TradingSignal

lemma ceil_eq_floor_add_one {a : ℚ} (h : ((⌊a⌋ : ℚ)) ≠ a) :
    (⌈a⌉ : ℤ) = ⌊a⌋ + 1 := by
  have h1 : (⌈a⌉ : ℤ) ≤ ⌊a⌋ + 1 := by
    apply Int.ceil_le.mpr
    push_cast
    exact le_of_lt (Int.lt_floor_add_one a)
  have h2 : ⌊a⌋ < ⌈a⌉ := by
    by_contra hc
    push_neg at hc
    have h3 : a ≤ (⌈a⌉ : ℚ) := Int.le_ceil a
    have h4 : ((⌈a⌉ : ℤ) : ℚ) ≤ ((⌊a⌋ : ℤ) : ℚ) := by exact_mod_cast hc
    have h5 : ((⌊a⌋ : ℤ) : ℚ) ≤ a := Int.floor_le a
    exact h (le_antisymm h5 (le_trans h3 h4))
  omega

namespace TradingSignal

/-- The `math.ceil`-based `ceil_tick` of Trading_Signal_System_S1.py
computes the same value as the floor-and-branch `ceil_tick` of
contact_price_calculator.py. -/
lemma ceil_tick_eq_contact (y : ℚ) :
    ceil_tick y = ContactCalc.ceil_tick y := by
  unfold ceil_tick ContactCalc.ceil_tick
  rw [tick_unit_eq_tick_size]
  have hdpos : 0 < ContactCalc.get_tick_size y := ContactCalc.tick_pos y
  by_cases h : (⌊y / ContactCalc.get_tick_size y⌋ : ℚ) * ContactCalc.get_tick_size y = y
  · rw [if_pos h]
    have h2 : y / ContactCalc.get_tick_size y
        = ((⌊y / ContactCalc.get_tick_size y⌋ : ℤ) : ℚ) := by
      rw [div_eq_iff (ne_of_gt hdpos)]
      exact h.symm
    rw [h2, Int.ceil_intCast, Int.floor_intCast]
  · rw [if_neg h]
    have h3 : ((⌊y / ContactCalc.get_tick_size y⌋ : ℤ) : ℚ)
        ≠ y / ContactCalc.get_tick_size y := by
      intro hc
      apply h
      rw [hc]
      exact div_mul_cancel₀ y (ne_of_gt hdpos)
    have h4 : (⌈y / ContactCalc.get_tick_size y⌉ : ℤ)
        = ⌊y / ContactCalc.get_tick_size y⌋ + 1 := ceil_eq_floor_add_one h3
    rw [h4]
    push_cast
    ring

lemma predict_loop_first (S19M : ℚ) (fuel : ℕ) (hf : 1 ≤ fuel) :
    predict_loop S19M fuel (ceil_tick (S19M / 24))
      = some (ceil_tick (S19M / 24)) := by
  cases fuel with
  | zero => exact absurd hf (by norm_num)
  | succ n =>
    unfold predict_loop
    rw [if_pos]
    have h := (ContactCalc.first_candidate_accepted S19M).2
    rw [ceil_tick_eq_contact, tick_unit_eq_tick_size]
    exact h

lemma predict_eq_solve (S19M : ℚ) (fuel : ℕ) (hf : 1 ≤ fuel) :
    predict_next_day_buy_price S19M fuel
      = ContactCalc.solve_contact_price S19M fuel := by
  unfold predict_next_day_buy_price
  rw [predict_loop_first S19M fuel hf,
    ContactCalc.solve_contact_price_eq S19M fuel hf, ceil_tick_eq_contact]
  rfl

end TradingSignal

namespace Monitor

lemma dictGet_dictSet_self (m : AlertMap) (t : String) (ta : TickerAlerts) :
    dictGet (dictSet m t ta) t = ta := by
  induction m with
  | nil => simp [dictGet, dictSet]
  | cons head rest ih =>
    obtain ⟨t', ta'⟩ := head
    by_cases h : t' = t
    · simp [dictSet, h, dictGet]
    · simp [dictSet, h, dictGet, ih]

lemma dictGet_dictSet_ne (m : AlertMap) (t t' : String) (ta : TickerAlerts)
    (h : t' ≠ t) : dictGet (dictSet m t ta) t' = dictGet m t' := by
  induction m with
  | nil => simp [dictGet, dictSet, Ne.symm h]
  | cons head rest ih =>
    obtain ⟨t0, ta0⟩ := head
    by_cases h0 : t0 = t
    · subst h0
      simp [dictSet, dictGet, Ne.symm h]
    · by_cases h1 : t0 = t'
      · subst h1
        simp [dictSet, h0, dictGet]
      · simp [dictSet, h0, dictGet, h1, ih]

lemma taGet_taSet_self (ta : TickerAlerts) (k : String) :
    taGet (taSet ta k) k = true := by
  unfold taSet
  by_cases h : taGet ta k
  · simp [h]
  · simp [h, taGet]

lemma taGet_taSet_ne (ta : TickerAlerts) (k k' : String) (h : k' ≠ k) :
    taGet (taSet ta k) k' = taGet ta k' := by
  unfold taSet
  by_cases hc : taGet ta k
  · simp [hc]
  · simp [hc, taGet, Ne.symm h]

/-- Re-running one ladder on the history it produced changes nothing and
returns `False`: the key fired by the first run now blocks its own
guard, and a run that did not fire left the history unchanged. -/
lemma ladderStep_idem (ticker : String) (d : ℚ)
    (execKey execType k1 t1 k3 t3 k5 t5 : String) (h : AlertHistory) :
    ladderStep ticker d execKey execType k1 t1 k3 t3 k5 t5
      (ladderStep ticker d execKey execType k1 t1 k3 t3 k5 t5 h).history
      = ⟨false,
          (ladderStep ticker d execKey execType k1 t1 k3 t3 k5 t5 h).history,
          [], false⟩ := by
  by_cases hc1 : d ≤ 0
  · by_cases hg1 : taGet (dictGet h.alerts ticker) execKey = false
    · simp [ladderStep, hc1, hg1, dictGet_dictSet_self, taGet_taSet_self]
    · simp [ladderStep, hc1, hg1]
  · have h0 : 0 < d := not_le.mp hc1
    by_cases hd1 : d ≤ 1
    · by_cases hg2 : taGet (dictGet h.alerts ticker) k1 = false
      · simp [ladderStep, hc1, h0, hd1, hg2, dictGet_dictSet_self, taGet_taSet_self]
      · simp [ladderStep, hc1, h0, hd1, hg2]
    · by_cases hd3 : d ≤ 3
      · by_cases hg3 : taGet (dictGet h.alerts ticker) k3 = false
          ∧ taGet (dictGet h.alerts ticker) k1 = false
        · simp [ladderStep, hc1, h0, hd1, hd3, hg3.1, hg3.2,
            dictGet_dictSet_self, taGet_taSet_self]
        · simp [ladderStep, hc1, h0, hd1, hd3, hg3]
      · by_cases hd5 : d ≤ 5
        · by_cases hg4 : taGet (dictGet h.alerts ticker) k5 = false
            ∧ taGet (dictGet h.alerts ticker) k1 = false
            ∧ taGet (dictGet h.alerts ticker) k3 = false
          · simp [ladderStep, hc1, h0, hd1, hd3, hd5, hg4.1, hg4.2.1, hg4.2.2,
              dictGet_dictSet_self, taGet_taSet_self]
          · simp [ladderStep, hc1, h0, hd1, hd3, hd5, hg4]
        · simp [ladderStep, hc1, h0, hd1, hd3, hd5]

/-- Whatever one ladder run does: at most one send; a `False` return
leaves the history unchanged, unsaved, with nothing sent; a `True`
return sets exactly one previously-unset key of its own ticker and
leaves every other key and every other ticker untouched. -/
lemma ladderStep_frame (ticker : String) (d : ℚ)
    (execKey execType k1 t1 k3 t3 k5 t5 : String) (h : AlertHistory)
    (r : CheckResult)
    (hr : ladderStep ticker d execKey execType k1 t1 k3 t3 k5 t5 h = r) :
    r.sends.length ≤ 1 ∧
    (r.fired = false → r.history = h ∧ r.saved = false ∧ r.sends = []) ∧
    (r.fired = true → ∃ key,
      taGet (dictGet h.alerts ticker) key = false ∧
      r.history =
        ⟨h.date, dictSet h.alerts ticker (taSet (dictGet h.alerts ticker) key)⟩ ∧
      (∀ k', k' ≠ key →
        taGet (dictGet r.history.alerts ticker) k'
          = taGet (dictGet h.alerts ticker) k') ∧
      (∀ t', t' ≠ ticker →
        dictGet r.history.alerts t' = dictGet h.alerts t')) := by
  unfold ladderStep at hr
  split_ifs at hr with hc1 hg1 hc2 hg2 hc3 hg3 hc4 hg4 <;> subst hr
  · refine ⟨by simp, by simp, fun _ => ⟨execKey, hg1, rfl, ?_, ?_⟩⟩
    · intro k' hk'
      simp [dictGet_dictSet_self, taGet_taSet_ne _ _ _ hk']
    · intro t' ht'
      simp [dictGet_dictSet_ne _ _ _ _ ht']
  · exact ⟨by simp, fun _ => ⟨rfl, rfl, rfl⟩, by simp⟩
  · refine ⟨by simp, by simp, fun _ => ⟨k1, hg2, rfl, ?_, ?_⟩⟩
    · intro k' hk'
      simp [dictGet_dictSet_self, taGet_taSet_ne _ _ _ hk']
    · intro t' ht'
      simp [dictGet_dictSet_ne _ _ _ _ ht']
  · exact ⟨by simp, fun _ => ⟨rfl, rfl, rfl⟩, by simp⟩
  · refine ⟨by simp, by simp, fun _ => ⟨k3, hg3.1, rfl, ?_, ?_⟩⟩
    · intro k' hk'
      simp [dictGet_dictSet_self, taGet_taSet_ne _ _ _ hk']
    · intro t' ht'
      simp [dictGet_dictSet_ne _ _ _ _ ht']
  · exact ⟨by simp, fun _ => ⟨rfl, rfl, rfl⟩, by simp⟩
  · refine ⟨by simp, by simp, fun _ => ⟨k5, hg4.1, rfl, ?_, ?_⟩⟩
    · intro k' hk'
      simp [dictGet_dictSet_self, taGet_taSet_ne _ _ _ hk']
    · intro t' ht'
      simp [dictGet_dictSet_ne _ _ _ _ ht']
  · exact ⟨by simp, fun _ => ⟨rfl, rfl, rfl⟩, by simp⟩
  · exact ⟨by simp, fun _ => ⟨rfl, rfl, rfl⟩, by simp⟩

lemma checkLadder_idem (ticker : String) (low_price buy_line : ℚ)
    (execKey execType k1 t1 k3 t3 k5 t5 : String) (h : AlertHistory)
    (r : CheckResult)
    (hr : checkBuyLadder ticker low_price buy_line
      execKey execType k1 t1 k3 t3 k5 t5 h = some r) :
    checkBuyLadder ticker low_price buy_line
      execKey execType k1 t1 k3 t3 k5 t5 r.history
      = some ⟨false, r.history, [], false⟩ := by
  unfold checkBuyLadder at hr ⊢
  cases hdist : calculate_low_price_distance low_price buy_line with
  | none => rw [hdist] at hr; cases hr
  | some d =>
    rw [hdist] at hr
    simp only [Option.map_some'] at hr ⊢
    injection hr with h2
    subst h2
    exact congrArg some (ladderStep_idem ticker d execKey execType k1 t1 k3 t3 k5 t5 h)

lemma checkLadder_frame (ticker : String) (low_price buy_line : ℚ)
    (execKey execType k1 t1 k3 t3 k5 t5 : String) (h : AlertHistory)
    (r : CheckResult)
    (hr : checkBuyLadder ticker low_price buy_line
      execKey execType k1 t1 k3 t3 k5 t5 h = some r) :
    r.sends.length ≤ 1 ∧
    (r.fired = false → r.history = h ∧ r.saved = false ∧ r.sends = []) ∧
    (r.fired = true → ∃ key,
      taGet (dictGet h.alerts ticker) key = false ∧
      r.history =
        ⟨h.date, dictSet h.alerts ticker (taSet (dictGet h.alerts ticker) key)⟩ ∧
      (∀ k', k' ≠ key →
        taGet (dictGet r.history.alerts ticker) k'
          = taGet (dictGet h.alerts ticker) k') ∧
      (∀ t', t' ≠ ticker →
        dictGet r.history.alerts t' = dictGet h.alerts t')) := by
  unfold checkBuyLadder at hr
  cases hdist : calculate_low_price_distance low_price buy_line with
  | none => rw [hdist] at hr; cases hr
  | some d =>
    rw [hdist] at hr
    simp only [Option.map_some'] at hr
    injection hr with h2
    subst h2
    exact ladderStep_frame ticker d execKey execType k1 t1 k3 t3 k5 t5 h _ rfl

/-- A trivial no-op result satisfies the frame conditions; used for the
non-ladder branches of `check_simplified_alert`. -/
lemma noop_frame (ticker : String) (h : AlertHistory) (r : CheckResult)
    (hr : (⟨false, h, [], false⟩ : CheckResult) = r) :
    r.sends.length ≤ 1 ∧
    (r.fired = false → r.history = h ∧ r.saved = false ∧ r.sends = []) ∧
    (r.fired = true → ∃ key,
      taGet (dictGet h.alerts ticker) key = false ∧
      r.history =
        ⟨h.date, dictSet h.alerts ticker (taSet (dictGet h.alerts ticker) key)⟩ ∧
      (∀ k', k' ≠ key →
        taGet (dictGet r.history.alerts ticker) k'
          = taGet (dictGet h.alerts ticker) k') ∧
      (∀ t', t' ≠ ticker →
        dictGet r.history.alerts t' = dictGet h.alerts t')) := by
  subst hr
  exact ⟨by simp, fun _ => ⟨rfl, rfl, rfl⟩, by simp⟩

lemma check_missing1 (ticker stock_name : String) (cp lp : ℚ) (st : String)
    (b2 b3 : Option ℚ) (h : AlertHistory) :
    check_simplified_alert ticker stock_name cp lp st none b2 b3 h
      = some ⟨false, h, [], false⟩ := rfl

lemma check_missing2 (ticker stock_name : String) (cp lp b1 : ℚ) (st : String)
    (b3 : Option ℚ) (h : AlertHistory) :
    check_simplified_alert ticker stock_name cp lp st (some b1) none b3 h
      = some ⟨false, h, [], false⟩ := rfl

lemma check_missing3 (ticker stock_name : String) (cp lp b1 b2 : ℚ)
    (st : String) (h : AlertHistory) :
    check_simplified_alert ticker stock_name cp lp st (some b1) (some b2) none h
      = some ⟨false, h, [], false⟩ := rfl

lemma check_some_eq (ticker stock_name : String) (cp lp b1 b2 b3 : ℚ)
    (st : String) (h : AlertHistory) :
    check_simplified_alert ticker stock_name cp lp st
      (some b1) (some b2) (some b3) h
      = (if st = "NONE" then
          checkBuyLadder ticker lp b1
            "BUY1_EXECUTED" "1차 매수 체결!"
            "READY_BUY1_1%" "1차 매수선 1% 인접"
            "READY_BUY1_3%" "1차 매수선 3% 인접"
            "READY_BUY1_5%" "1차 매수선 5% 인접" h
        else if st = "BOUGHT_1" then
          checkBuyLadder ticker lp b2
            "BUY2_EXECUTED" "2차 매수 체결!"
            "READY_BUY2_1%" "2차 매수선 1% 인접"
            "READY_BUY2_3%" "2차 매수선 3% 인접"
            "READY_BUY2_5%" "2차 매수선 5% 인접" h
        else if st = "BOUGHT_2" then
          checkBuyLadder ticker lp b3
            "BUY3_EXECUTED" "3차 매수 체결!"
            "READY_BUY3_1%" "3차 매수선 1% 인접"
            "READY_BUY3_3%" "3차 매수선 3% 인접"
            "READY_BUY3_5%" "3차 매수선 5% 인접" h
        else some ⟨false, h, [], false⟩) := rfl

end Monitor

/-! Claim theorems. -/

/-- C1: for every `S19 > 0` the contact-price solver terminates (any
iteration budget ≥ 1 suffices, because the loop accepts its very first
candidate) and returns an integer quantized price `p` that the
independent verifier accepts: recomputing the 20-period average
`(S19+p)/20`, applying the -20% envelope factor and quantizing up
yields `p` itself. -/
theorem c1_solver_terminates_and_verifies (S19 : ℚ) (fuel : ℕ)
    (hS : 0 < S19) (hf : 1 ≤ fuel) :
    ∃ p : ℤ, ContactCalc.solve_contact_price S19 fuel = some p ∧
      ContactCalc.verify_contact_price S19 p = true :=
  ⟨⌊ContactCalc.ceil_tick (S19 / 24)⌋,
    ContactCalc.solve_contact_price_eq S19 fuel hf,
    ContactCalc.verify_first_candidate S19⟩

theorem c1_witness :
    (0 : ℚ) < 1653800 ∧ 1 ≤ 1 ∧
    ∃ p : ℤ, ContactCalc.solve_contact_price 1653800 1 = some p ∧
      ContactCalc.verify_contact_price 1653800 p = true :=
  ⟨by norm_num, le_refl 1,
    c1_solver_terminates_and_verifies 1653800 1 (by norm_num) (le_refl 1)⟩

/-- C2 counterexample: at the on-tick price 10000 (tick size 10) the
claim's two policies are swapped in the code: the line calculator's
buy-tier-2/3 rounding `get_nearest_tick_price` escalates 10000 to
10010 (the claim says it returns it unchanged), while the contact-price
solver's candidate generator `ceil_tick` returns 10000 unchanged (the
claim says it escalates to the next tick). -/
theorem c2_counterexample_policy_swapped :
    TradingSignal.get_nearest_tick_price 10000 = 10010 ∧
    ContactCalc.ceil_tick 10000 = 10000 := by
  constructor
  · norm_num [TradingSignal.get_nearest_tick_price, TradingSignal.get_tick_unit]
  · norm_num [ContactCalc.ceil_tick, ContactCalc.get_tick_size]

/-- C2 (amended): for every exactly-on-tick price `p`, the line
calculator's buy-tier-2/3 rounding escalates `p` one full tick up,
while the contact-price solver's candidate generation (`ceil_tick`)
and the real-time monitor's `get_nearest_tick_price` treat the exact
match as already valid and return `p` unchanged. -/
theorem c2_amended_exact_tick_policies (p : ℚ) (k : ℤ)
    (hk : p = (k : ℚ) * ContactCalc.get_tick_size p) :
    TradingSignal.get_nearest_tick_price p = p + TradingSignal.get_tick_unit p ∧
    ContactCalc.ceil_tick p = p ∧
    Monitor.get_nearest_tick_price p = p := by
  have hd := ContactCalc.tick_pos p
  have hfl : (⌊p / ContactCalc.get_tick_size p⌋ : ℚ) * ContactCalc.get_tick_size p
      = p := by
    have hdiv : p / ContactCalc.get_tick_size p = (k : ℚ) := by
      rw [div_eq_iff (ne_of_gt hd)]
      exact hk
    rw [hdiv, Int.floor_intCast, ← hk]
  refine ⟨?_, ?_, ?_⟩
  · unfold TradingSignal.get_nearest_tick_price
    rw [if_pos]
    rw [tick_unit_eq_tick_size]
    exact hfl
  · unfold ContactCalc.ceil_tick
    rw [if_pos hfl]
    exact hfl
  · unfold Monitor.get_nearest_tick_price
    rw [if_pos]
    rw [monitor_tick_eq_tick_size]
    exact hfl

theorem c2_amended_witness :
    (10000 : ℚ) = ((1000 : ℤ) : ℚ) * ContactCalc.get_tick_size 10000 ∧
    (TradingSignal.get_nearest_tick_price 10000
        = 10000 + TradingSignal.get_tick_unit 10000 ∧
      ContactCalc.ceil_tick 10000 = 10000 ∧
      Monitor.get_nearest_tick_price 10000 = 10000) :=
  ⟨by norm_num [ContactCalc.get_tick_size],
    c2_amended_exact_tick_policies 10000 1000
      (by norm_num [ContactCalc.get_tick_size])⟩

/-- C3: the code computes `Close_D_20` and `Close_D_19` from the same
`iloc[-20]` element, so `S19_today` and `S19_next` are always the same
value; on the 20-close series `[1000, 2000, 2000, ..., 2000]` both
equal 38000, while the today sum that the dual-computation structure
intends (`S20 - today's close`) would be 37000. -/
theorem c3_sums_conflated :
    TradingSignal.S19_today (1000 :: List.replicate 19 2000) = some 38000 ∧
    TradingSignal.S19_next (1000 :: List.replicate 19 2000) = some 38000 ∧
    TradingSignal.S19_today (1000 :: List.replicate 19 2000) ≠ some 37000 := by
  refine ⟨?_, ?_, ?_⟩ <;>
    norm_num [TradingSignal.S19_today, TradingSignal.S19_next,
      TradingSignal.calculate_ma, List.replicate]

/-- C4 counterexample: for `average_entry_price = 10010`, the state
machine's first sell line is `10010 * 1.03 = 10310.3`, which is not the
quantized-down value `floor_tick(10310.3) = 10310` the claim
prescribes (and is not on-tick at all). -/
theorem c4_counterexample_unquantized_sell :
    (TradingSignal.analyze_sell_lines 10010).1
      ≠ TradingSignal.floor_tick (10010 * (1 + 3 / 100)) := by
  norm_num [TradingSignal.analyze_sell_lines, TradingSignal.floor_tick,
    TradingSignal.get_tick_unit]

/-- C4 (amended): the state machine's sell lines are the exact
percentage-gain prices `avg * (1 + g_k)` for `g = 3%, 5%, 7%`, with no
tick quantization (the `floor_tick`-based `calculate_sell_line_k`
helpers exist in the module but are never called); the ladder is still
strictly increasing above the entry price, and each line is at least
its quantized-down counterpart, i.e. it can exceed the largest
achievable on-tick price at that percentage gain. -/
theorem c4_amended_sell_lines (avg : ℚ) (h : 0 < avg) :
    TradingSignal.analyze_sell_lines avg
      = (avg * (1 + 3 / 100), avg * (1 + 5 / 100), avg * (1 + 7 / 100)) ∧
    avg < (TradingSignal.analyze_sell_lines avg).1 ∧
    (TradingSignal.analyze_sell_lines avg).1
      < (TradingSignal.analyze_sell_lines avg).2.1 ∧
    (TradingSignal.analyze_sell_lines avg).2.1
      < (TradingSignal.analyze_sell_lines avg).2.2 ∧
    TradingSignal.floor_tick (avg * (1 + 3 / 100))
      ≤ (TradingSignal.analyze_sell_lines avg).1 ∧
    TradingSignal.floor_tick (avg * (1 + 5 / 100))
      ≤ (TradingSignal.analyze_sell_lines avg).2.1 ∧
    TradingSignal.floor_tick (avg * (1 + 7 / 100))
      ≤ (TradingSignal.analyze_sell_lines avg).2.2 := by
  have e : TradingSignal.analyze_sell_lines avg
      = (avg * (1 + 3 / 100), avg * (1 + 5 / 100), avg * (1 + 7 / 100)) := by
    unfold TradingSignal.analyze_sell_lines
    rw [if_pos h]
  rw [e]
  refine ⟨rfl, by nlinarith, by nlinarith, by nlinarith, ?_, ?_, ?_⟩ <;>
    exact TradingSignal.floor_tick_le _

theorem c4_amended_witness :
    (0 : ℚ) < 10010 ∧
    (TradingSignal.analyze_sell_lines 10010
        = (10010 * (1 + 3 / 100), 10010 * (1 + 5 / 100), 10010 * (1 + 7 / 100)) ∧
      10010 < (TradingSignal.analyze_sell_lines 10010).1 ∧
      (TradingSignal.analyze_sell_lines 10010).1
        < (TradingSignal.analyze_sell_lines 10010).2.1 ∧
      (TradingSignal.analyze_sell_lines 10010).2.1
        < (TradingSignal.analyze_sell_lines 10010).2.2 ∧
      TradingSignal.floor_tick (10010 * (1 + 3 / 100))
        ≤ (TradingSignal.analyze_sell_lines 10010).1 ∧
      TradingSignal.floor_tick (10010 * (1 + 5 / 100))
        ≤ (TradingSignal.analyze_sell_lines 10010).2.1 ∧
      TradingSignal.floor_tick (10010 * (1 + 7 / 100))
        ≤ (TradingSignal.analyze_sell_lines 10010).2.2) :=
  ⟨by norm_num, c4_amended_sell_lines 10010 (by norm_num)⟩

/-- C5 counterexample: the claim's failure outcome is unreachable — no
`S19` exists at which the solver, given any iteration budget ≥ 1, runs
out of its budget (the `none` of the fuel embedding); hence no input
can ever exceed a cap, and the code indeed contains neither a cap nor
a `ContactPriceUnsolvedError` (the name appears nowhere in the
repository). -/
theorem c5_counterexample_no_failure_possible :
    ¬ ∃ (S19 : ℚ) (fuel : ℕ), 1 ≤ fuel ∧
      ContactCalc.solve_contact_price S19 fuel = none := by
  rintro ⟨S19, fuel, hf, hnone⟩
  rw [ContactCalc.solve_contact_price_eq S19 fuel hf] at hnone
  cases hnone

/-- C5 (amended): the fixed-point iteration is not capped in the code
(`while True:` with no counter) and no `ContactPriceUnsolvedError`
exists; no cap is needed, because for every `S19` the loop accepts its
very first candidate, so with any iteration budget ≥ 1 the solver
returns `⌊ceil_tick(S19/24)⌋` and cannot fail. -/
theorem c5_amended_solver_never_fails (S19 : ℚ) (fuel : ℕ) (hf : 1 ≤ fuel) :
    ContactCalc.solve_contact_price S19 fuel
      = some ⌊ContactCalc.ceil_tick (S19 / 24)⌋ :=
  ContactCalc.solve_contact_price_eq S19 fuel hf

theorem c5_amended_witness :
    1 ≤ 1 ∧
    ContactCalc.solve_contact_price 1653800 1
      = some ⌊ContactCalc.ceil_tick ((1653800 : ℚ) / 24)⌋ :=
  ⟨le_refl 1, c5_amended_solver_never_fails 1653800 1 (le_refl 1)⟩

/-- C6: for every `S19 > 0` and iteration budget ≥ 1 the next-day
buy-line predictor (whose loop tests only `p < upper`) returns exactly
the same integer price as the shared contact-price solver (whose loop
also tests `x_star ≤ p`): both accept the common first candidate
`ceil_tick(S19/24)`. -/
theorem c6_predictor_equals_solver (S19 : ℚ) (fuel : ℕ)
    (hS : 0 < S19) (hf : 1 ≤ fuel) :
    TradingSignal.predict_next_day_buy_price S19 fuel
      = ContactCalc.solve_contact_price S19 fuel :=
  TradingSignal.predict_eq_solve S19 fuel hf

theorem c6_witness :
    (0 : ℚ) < 1653800 ∧ 1 ≤ 1 ∧
    TradingSignal.predict_next_day_buy_price 1653800 1
      = ContactCalc.solve_contact_price 1653800 1 ∧
    TradingSignal.predict_next_day_buy_price 1653800 1 = some 69000 :=
  ⟨by norm_num, le_refl 1,
    c6_predictor_equals_solver 1653800 1 (by norm_num) (le_refl 1),
    by
      have hceil : (⌈(8269 : ℚ) / 12⌉ : ℤ) = 690 := by
        rw [Int.ceil_eq_iff]
        constructor <;> norm_num
      norm_num [TradingSignal.predict_next_day_buy_price,
        TradingSignal.predict_loop, TradingSignal.ceil_tick,
        TradingSignal.get_tick_unit, hceil]⟩

/-- C7: for every price `p ≥ 0`, quantize-up (`ceil_tick`) is ≥ `p` and
an exact integer multiple of the tick size evaluated at its own
result, and quantize-down (`floor_tick`) is ≤ `p` and likewise on the
tick grid of its own result's bucket. -/
theorem c7_quantize_bounds_and_grid (p : ℚ) (hp : 0 ≤ p) :
    (p ≤ ContactCalc.ceil_tick p ∧
      ∃ k : ℤ, ContactCalc.ceil_tick p
        = (k : ℚ) * ContactCalc.get_tick_size (ContactCalc.ceil_tick p)) ∧
    (TradingSignal.floor_tick p ≤ p ∧
      ∃ k : ℤ, TradingSignal.floor_tick p
        = (k : ℚ) * ContactCalc.get_tick_size (TradingSignal.floor_tick p)) :=
  ⟨⟨ContactCalc.le_ceil_tick p, ContactCalc.ceil_tick_isMul_self p⟩,
    ⟨TradingSignal.floor_tick_le p, TradingSignal.floor_tick_isMul_self p⟩⟩

theorem c7_witness :
    (0 : ℚ) ≤ 12345 ∧
    ((12345 : ℚ) ≤ ContactCalc.ceil_tick 12345 ∧
      ∃ k : ℤ, ContactCalc.ceil_tick 12345
        = (k : ℚ) * ContactCalc.get_tick_size (ContactCalc.ceil_tick 12345)) ∧
    (TradingSignal.floor_tick 12345 ≤ 12345 ∧
      ∃ k : ℤ, TradingSignal.floor_tick 12345
        = (k : ℚ) * ContactCalc.get_tick_size (TradingSignal.floor_tick 12345)) :=
  ⟨by norm_num, c7_quantize_bounds_and_grid 12345 (by norm_num)⟩

/-- C8: the real-time alert check is idempotent within one epoch: if one
evaluation of an instrument yields result `r`, a second evaluation with
identical inputs against the history `r` produced returns `False`,
leaves the history exactly `r.history`, sends nothing and does not
re-persist — every condition key fired by the first call now blocks its
own guard. -/
theorem c8_idempotent (ticker stock_name : String)
    (current_price low_price : ℚ) (buy_status : String)
    (buy1 buy2 buy3 : Option ℚ) (h : Monitor.AlertHistory)
    (r : Monitor.CheckResult)
    (hr : Monitor.check_simplified_alert ticker stock_name current_price
      low_price buy_status buy1 buy2 buy3 h = some r) :
    Monitor.check_simplified_alert ticker stock_name current_price
      low_price buy_status buy1 buy2 buy3 r.history
      = some ⟨false, r.history, [], false⟩ := by
  cases buy1 with
  | none =>
    rw [Monitor.check_missing1] at hr
    injection hr with h2
    subst h2
    exact Monitor.check_missing1 _ _ _ _ _ _ _ _
  | some b1 =>
    cases buy2 with
    | none =>
      rw [Monitor.check_missing2] at hr
      injection hr with h2
      subst h2
      exact Monitor.check_missing2 _ _ _ _ _ _ _ _
    | some b2 =>
      cases buy3 with
      | none =>
        rw [Monitor.check_missing3] at hr
        injection hr with h2
        subst h2
        exact Monitor.check_missing3 _ _ _ _ _ _ _ _
      | some b3 =>
        rw [Monitor.check_some_eq] at hr ⊢
        by_cases hs1 : buy_status = "NONE"
        · rw [if_pos hs1] at hr ⊢
          exact Monitor.checkLadder_idem _ _ _ _ _ _ _ _ _ _ _ _ _ hr
        · rw [if_neg hs1] at hr ⊢
          by_cases hs2 : buy_status = "BOUGHT_1"
          · rw [if_pos hs2] at hr ⊢
            exact Monitor.checkLadder_idem _ _ _ _ _ _ _ _ _ _ _ _ _ hr
          · rw [if_neg hs2] at hr ⊢
            by_cases hs3 : buy_status = "BOUGHT_2"
            · rw [if_pos hs3] at hr ⊢
              exact Monitor.checkLadder_idem _ _ _ _ _ _ _ _ _ _ _ _ _ hr
            · rw [if_neg hs3] at hr ⊢

theorem c8_witness :
    Monitor.check_simplified_alert "X" "NAME" (201 / 2) (201 / 2) "NONE"
        (some 100) (some 90) (some 81) ⟨"2025-10-14", []⟩
      = some ⟨true, ⟨"2025-10-14", [("X", ["READY_BUY1_1%"])]⟩,
          ["1차 매수선 1% 인접"], true⟩ ∧
    Monitor.check_simplified_alert "X" "NAME" (201 / 2) (201 / 2) "NONE"
        (some 100) (some 90) (some 81)
        ⟨"2025-10-14", [("X", ["READY_BUY1_1%"])]⟩
      = some ⟨false, ⟨"2025-10-14", [("X", ["READY_BUY1_1%"])]⟩, [], false⟩ :=
  ⟨by norm_num [Monitor.check_some_eq, Monitor.checkBuyLadder,
      Monitor.calculate_low_price_distance, Monitor.ladderStep,
      Monitor.dictGet, Monitor.taGet, Monitor.taSet, Monitor.dictSet,
      abs_of_pos],
    c8_idempotent "X" "NAME" (201 / 2) (201 / 2) "NONE"
      (some 100) (some 90) (some 81) ⟨"2025-10-14", []⟩
      ⟨true, ⟨"2025-10-14", [("X", ["READY_BUY1_1%"])]⟩,
        ["1차 매수선 1% 인접"], true⟩
      (by norm_num [Monitor.check_some_eq, Monitor.checkBuyLadder,
        Monitor.calculate_low_price_distance, Monitor.ladderStep,
        Monitor.dictGet, Monitor.taGet, Monitor.taSet, Monitor.dictSet,
        abs_of_pos])⟩

/-- C9: within one epoch, in stage NONE with a positive distance `d` to
buy line 1, (a) once the 1% condition has fired, no buy-line-1 distance
condition fires again — in particular the 3% and 5% conditions are
suppressed and the history is left untouched — while (b) a previously
fired 5% condition does not block the closer 1% condition: with the 1%
key still unset and `d ≤ 1`, the 1% alert fires. -/
theorem c9_escalation_suppression (ticker stock_name : String)
    (current_price low_price b1 b2 b3 : ℚ) (h : Monitor.AlertHistory)
    (d : ℚ)
    (hd : Monitor.calculate_low_price_distance low_price b1 = some d)
    (h0 : 0 < d) :
    (Monitor.taGet (Monitor.dictGet h.alerts ticker) "READY_BUY1_1%" = true →
      Monitor.check_simplified_alert ticker stock_name current_price
        low_price "NONE" (some b1) (some b2) (some b3) h
        = some ⟨false, h, [], false⟩) ∧
    (Monitor.taGet (Monitor.dictGet h.alerts ticker) "READY_BUY1_1%" = false →
      Monitor.taGet (Monitor.dictGet h.alerts ticker) "READY_BUY1_5%" = true →
      d ≤ 1 →
      Monitor.check_simplified_alert ticker stock_name current_price
        low_price "NONE" (some b1) (some b2) (some b3) h
        = some ⟨true,
            ⟨h.date, Monitor.dictSet h.alerts ticker
              (Monitor.taSet (Monitor.dictGet h.alerts ticker) "READY_BUY1_1%")⟩,
            ["1차 매수선 1% 인접"], true⟩) := by
  have hc1 : ¬ d ≤ 0 := not_le.mpr h0
  constructor
  · intro h1
    rw [Monitor.check_some_eq, if_pos rfl]
    unfold Monitor.checkBuyLadder
    rw [hd]
    simp only [Option.map_some']
    by_cases hd1 : d ≤ 1
    · simp [Monitor.ladderStep, hc1, h0, hd1, h1]
    · by_cases hd3 : d ≤ 3
      · simp [Monitor.ladderStep, hc1, h0, hd1, hd3, h1]
      · by_cases hd5 : d ≤ 5
        · simp [Monitor.ladderStep, hc1, h0, hd1, hd3, hd5, h1]
        · simp [Monitor.ladderStep, hc1, h0, hd1, hd3, hd5]
  · intro h1 h5 hdle
    rw [Monitor.check_some_eq, if_pos rfl]
    unfold Monitor.checkBuyLadder
    rw [hd]
    simp only [Option.map_some']
    simp [Monitor.ladderStep, hc1, h0, hdle, h1]

theorem c9_witness :
    Monitor.calculate_low_price_distance (201 / 2) 100 = some (1 / 2) ∧
    (0 : ℚ) < 1 / 2 ∧
    ((Monitor.taGet
        (Monitor.dictGet ([("X", ["READY_BUY1_1%"])] : Monitor.AlertMap) "X")
        "READY_BUY1_1%" = true →
      Monitor.check_simplified_alert "X" "NAME" (201 / 2) (201 / 2) "NONE"
        (some 100) (some 90) (some 81)
        ⟨"2025-10-14", [("X", ["READY_BUY1_1%"])]⟩
        = some ⟨false, ⟨"2025-10-14", [("X", ["READY_BUY1_1%"])]⟩, [], false⟩) ∧
    (Monitor.taGet
        (Monitor.dictGet ([("X", ["READY_BUY1_1%"])] : Monitor.AlertMap) "X")
        "READY_BUY1_1%" = false →
      Monitor.taGet
        (Monitor.dictGet ([("X", ["READY_BUY1_1%"])] : Monitor.AlertMap) "X")
        "READY_BUY1_5%" = true →
      (1 : ℚ) / 2 ≤ 1 →
      Monitor.check_simplified_alert "X" "NAME" (201 / 2) (201 / 2) "NONE"
        (some 100) (some 90) (some 81)
        ⟨"2025-10-14", [("X", ["READY_BUY1_1%"])]⟩
        = some ⟨true,
            ⟨"2025-10-14", Monitor.dictSet
              ([("X", ["READY_BUY1_1%"])] : Monitor.AlertMap) "X"
              (Monitor.taSet
                (Monitor.dictGet
                  ([("X", ["READY_BUY1_1%"])] : Monitor.AlertMap) "X")
                "READY_BUY1_1%")⟩,
            ["1차 매수선 1% 인접"], true⟩)) :=
  ⟨by norm_num [Monitor.calculate_low_price_distance, abs_of_pos], by norm_num,
    c9_escalation_suppression "X" "NAME" (201 / 2) (201 / 2) 100 90 81
      ⟨"2025-10-14", [("X", ["READY_BUY1_1%"])]⟩ (1 / 2)
      (by norm_num [Monitor.calculate_low_price_distance, abs_of_pos])
      (by norm_num)⟩

/-- C10: one invocation of the real-time alert check sends at most one
alert; when it returns `False` the alert history is exactly the input
history and `save_alert_history` is not called; when it returns `True`
it marks exactly one previously-unset condition key of its own ticker,
leaving every other condition key and every other ticker unchanged. -/
theorem c10_single_alert_frame (ticker stock_name : String)
    (current_price low_price : ℚ) (buy_status : String)
    (buy1 buy2 buy3 : Option ℚ) (h : Monitor.AlertHistory)
    (r : Monitor.CheckResult)
    (hr : Monitor.check_simplified_alert ticker stock_name current_price
      low_price buy_status buy1 buy2 buy3 h = some r) :
    r.sends.length ≤ 1 ∧
    (r.fired = false → r.history = h ∧ r.saved = false ∧ r.sends = []) ∧
    (r.fired = true → ∃ key,
      Monitor.taGet (Monitor.dictGet h.alerts ticker) key = false ∧
      r.history = ⟨h.date, Monitor.dictSet h.alerts ticker
        (Monitor.taSet (Monitor.dictGet h.alerts ticker) key)⟩ ∧
      (∀ k', k' ≠ key →
        Monitor.taGet (Monitor.dictGet r.history.alerts ticker) k'
          = Monitor.taGet (Monitor.dictGet h.alerts ticker) k') ∧
      (∀ t', t' ≠ ticker →
        Monitor.dictGet r.history.alerts t'
          = Monitor.dictGet h.alerts t')) := by
  cases buy1 with
  | none =>
    rw [Monitor.check_missing1] at hr
    injection hr with h2
    exact Monitor.noop_frame ticker h r h2
  | some b1 =>
    cases buy2 with
    | none =>
      rw [Monitor.check_missing2] at hr
      injection hr with h2
      exact Monitor.noop_frame ticker h r h2
    | some b2 =>
      cases buy3 with
      | none =>
        rw [Monitor.check_missing3] at hr
        injection hr with h2
        exact Monitor.noop_frame ticker h r h2
      | some b3 =>
        rw [Monitor.check_some_eq] at hr
        by_cases hs1 : buy_status = "NONE"
        · rw [if_pos hs1] at hr
          exact Monitor.checkLadder_frame _ _ _ _ _ _ _ _ _ _ _ _ _ hr
        · rw [if_neg hs1] at hr
          by_cases hs2 : buy_status = "BOUGHT_1"
          · rw [if_pos hs2] at hr
            exact Monitor.checkLadder_frame _ _ _ _ _ _ _ _ _ _ _ _ _ hr
          · rw [if_neg hs2] at hr
            by_cases hs3 : buy_status = "BOUGHT_2"
            · rw [if_pos hs3] at hr
              exact Monitor.checkLadder_frame _ _ _ _ _ _ _ _ _ _ _ _ _ hr
            · rw [if_neg hs3] at hr
              injection hr with h2
              exact Monitor.noop_frame ticker h r h2

theorem c10_witness :
    Monitor.check_simplified_alert "X" "NAME" (201 / 2) (201 / 2) "NONE"
        (some 100) (some 90) (some 81) ⟨"2025-10-14", []⟩
      = some ⟨true, ⟨"2025-10-14", [("X", ["READY_BUY1_1%"])]⟩,
          ["1차 매수선 1% 인접"], true⟩ ∧
    (⟨true, ⟨"2025-10-14", [("X", ["READY_BUY1_1%"])]⟩,
        ["1차 매수선 1% 인접"], true⟩ : Monitor.CheckResult).sends.length ≤ 1 :=
  ⟨by norm_num [Monitor.check_some_eq, Monitor.checkBuyLadder,
      Monitor.calculate_low_price_distance, Monitor.ladderStep,
      Monitor.dictGet, Monitor.taGet, Monitor.taSet, Monitor.dictSet,
      abs_of_pos],
    (c10_single_alert_frame "X" "NAME" (201 / 2) (201 / 2) "NONE"
      (some 100) (some 90) (some 81) ⟨"2025-10-14", []⟩
      ⟨true, ⟨"2025-10-14", [("X", ["READY_BUY1_1%"])]⟩,
        ["1차 매수선 1% 인접"], true⟩
      (by norm_num [Monitor.check_some_eq, Monitor.checkBuyLadder,
        Monitor.calculate_low_price_distance, Monitor.ladderStep,
        Monitor.dictGet, Monitor.taGet, Monitor.taSet, Monitor.dictSet,
        abs_of_pos])).1⟩

end S1
